import Mathlib

/-!
Verification of the tender-app browser view controller
(`src/static/script.js`) against its natural-language specification.

The script is embedded shallowly:

* a JSON row record (`Row`) is an association list from column name to
  cell value, in the key-iteration order of the object;
* the `/data` response is an association list from filial name to row list;
* the mutable page state touched by the script (`dataTable` handle, the
  `#tenderTable` header cells and body rows, the export button's enabled
  flag) is a `ViewState` record;
* `selectFilialStart` is the synchronous prefix of `fetchAndRender` (the
  teardown branch and the disabling of the export button, executed before
  `$.getJSON` is issued); `handleResponse` is the success callback passed
  to `$.getJSON`; `fetchAndRender` composes the two, modelling a completed
  request cycle;
* `selectFilialTrace` records the ordered side effects of the synchronous
  prefix, up to and including the issuing of the request, for the
  temporal claims;
* the export-button click handler is `exportUrl` over the list of rendered
  checkboxes in document order, with `encodeURIComponent` modelled from
  the ECMAScript definition (unreserved characters kept, all others
  percent-encoded byte-wise in UTF-8, uppercase hex digits).
-/

/-- A fetched row record: column name to cell value, in object key order.
`row[col]` is `List.lookup`, `undefined` becoming `none`. -/
abbrev Row := List (String × String)

/-- The `/data` JSON response: filial name to its sequence of row records. -/
abbrev DataResponse := List (String × List Row)

/-- `const rows = data[filial] || []` — the rows for the requested filial,
a missing key giving the empty sequence. -/
def rowsFor (filial : String) (data : DataResponse) : List Row :=
  (data.lookup filial).getD []

/-- A rendered table cell: either the synthetic leading checkbox cell
carrying its `data-index` attribute, or a plain text cell. -/
inductive Cell where
  | checkbox (dataIndex : Nat)
  | text (val : String)
deriving DecidableEq, Repr

/-- The DataTables instance created by `$('#tenderTable').DataTable({...})`:
its data set, column titles, the non-sortable `columnDefs` targets, the
default `order`, and whether `destroy()` has been called on it. -/
structure TableInstance where
  destroyed : Bool
  tableData : List (List Cell)
  columnTitles : List String
  nonSortableTargets : List Nat
  orderColumn : Nat
  orderDirection : String
deriving DecidableEq, Repr

/-- The page state the script reads and writes: the `dataTable` variable
(`null` or an instance), the `#tenderTable thead tr` cells, the
`#tenderTable tbody` rows, and the export button's enablement. -/
structure ViewState where
  dataTable : Option TableInstance
  theadCells : List String
  tbodyRows : List (List Cell)
  exportEnabled : Bool
deriving DecidableEq, Repr

/-- One body row of the data set handed to DataTables: the checkbox cell
`<input ... data-index="idx" />` followed by, for each column of the first
row, `row[col] === undefined ? '' : row[col]`. -/
def rowCells (columns : List String) (idx : Nat) (row : Row) : List Cell :=
  Cell.checkbox idx :: columns.map (fun col => Cell.text ((row.lookup col).getD ""))

/-- `rows.map((row, idx) => ...)` with the running index made explicit. -/
def buildDataSetFrom (columns : List String) (idx : Nat) : List Row → List (List Cell)
  | [] => []
  | row :: rest => rowCells columns idx row :: buildDataSetFrom columns (idx + 1) rest

/-- The `dataSet` array built from the fetched rows, indices starting at 0. -/
def buildDataSet (columns : List String) (rows : List Row) : List (List Cell) :=
  buildDataSetFrom columns 0 rows

/-- The synchronous prefix of `fetchAndRender`, run before `$.getJSON`:
if `dataTable` is non-null, `destroy()` it and empty the table body and
header row; then disable the export button. `destroy()` mutates the
instance the handle still points at — the handle is never nulled. -/
def selectFilialStart (s : ViewState) : ViewState :=
  match s.dataTable with
  | some t =>
      { dataTable := some { t with destroyed := true }
        theadCells := []
        tbodyRows := []
        exportEnabled := false }
  | none => { s with exportEnabled := false }

/-- The ordered side effects of the synchronous prefix of `fetchAndRender`,
ending with the issuing of the `$.getJSON` request. -/
inductive Ev where
  | destroyCall (alreadyDestroyed : Bool)
  | clearBody
  | clearHeader
  | disableExport
  | issueRequest (filial : String)
deriving DecidableEq, Repr

/-- Event trace of the synchronous prefix of `fetchAndRender filial`. -/
def selectFilialTrace (s : ViewState) (filial : String) : List Ev :=
  match s.dataTable with
  | some t =>
      [Ev.destroyCall t.destroyed, Ev.clearBody, Ev.clearHeader,
       Ev.disableExport, Ev.issueRequest filial]
  | none => [Ev.disableExport, Ev.issueRequest filial]

/-- The `$.getJSON` success callback: with zero rows it returns at once;
otherwise it derives `columns` from the first row's keys, appends the blank
header cell and one `<th>` per column, builds the data set, initialises the
DataTable (non-sortable column 0, default order `[[1, 'asc']]`), and
re-enables the export button. -/
def handleResponse (filial : String) (data : DataResponse) (s : ViewState) : ViewState :=
  match rowsFor filial data with
  | [] => s
  | first :: rest =>
      { dataTable := some
          { destroyed := false
            tableData := buildDataSet (first.map Prod.fst) (first :: rest)
            columnTitles := "" :: first.map Prod.fst
            nonSortableTargets := [0]
            orderColumn := 1
            orderDirection := "asc" }
        theadCells := s.theadCells ++ "" :: first.map Prod.fst
        tbodyRows := s.tbodyRows ++ buildDataSet (first.map Prod.fst) (first :: rest)
        exportEnabled := true }

/-- A full `fetchAndRender filial` cycle in which the response `data`
arrives and the success callback runs to completion. -/
def fetchAndRender (filial : String) (data : DataResponse) (s : ViewState) : ViewState :=
  handleResponse filial data (selectFilialStart s)

/-- States reachable from the initial markup satisfy: while `dataTable`
is still `null`, the table header and body have never been written. -/
def ViewInv (s : ViewState) : Prop :=
  s.dataTable = none → s.theadCells = [] ∧ s.tbodyRows = []

instance (s : ViewState) : Decidable (ViewInv s) := by
  unfold ViewInv; infer_instance

/-- The page state on load: no table instance, empty header row and body,
export button disabled. -/
def initState : ViewState :=
  { dataTable := none, theadCells := [], tbodyRows := [], exportEnabled := false }

/-- The export click handler's scan of
`$('#tenderTable tbody input.row-select:checked')`: the checkboxes in
document order, each with its carried `data-index`; the checked ones' indices
are pushed in that document order. -/
def collectChecked : List (Nat × Bool) → List Nat
  | [] => []
  | cb :: rest => if cb.2 then cb.1 :: collectChecked rest else collectChecked rest

/-- Unreserved characters of ECMAScript `encodeURIComponent`:
alphanumeric and `- _ . ! ~ * ' ( )` (the apostrophe written by code). -/
def uriUnreserved (c : Char) : Bool :=
  c.isAlphanum || c = '-' || c = '_' || c = '.' || c = '!' || c = '~' ||
    c = '*' || c = Char.ofNat 39 || c = '(' || c = ')'

/-- Uppercase hexadecimal digit for a value below 16. -/
def hexDigit (n : Nat) : Char :=
  if n < 10 then Char.ofNat (48 + n) else Char.ofNat (55 + n)

/-- Percent-encoding of one byte, uppercase hex. -/
def percentByte (b : Nat) : String :=
  String.mk ['%', hexDigit (b / 16), hexDigit (b % 16)]

/-- UTF-8 bytes of a Unicode code point. -/
def utf8Bytes (n : Nat) : List Nat :=
  if n < 128 then [n]
  else if n < 2048 then [192 + n / 64, 128 + n % 64]
  else if n < 65536 then [224 + n / 4096, 128 + (n / 64) % 64, 128 + n % 64]
  else [240 + n / 262144, 128 + (n / 4096) % 64, 128 + (n / 64) % 64, 128 + n % 64]

/-- ECMAScript `encodeURIComponent`: unreserved characters kept, every
other character percent-encoded byte-wise in UTF-8. -/
def encodeURIComponent (s : String) : String :=
  String.join (s.data.map (fun c =>
    if uriUnreserved c then String.singleton c
    else String.join ((utf8Bytes c.toNat).map percentByte)))

/-- `Object.keys(rows[0])` for a non-empty row list, `[]` otherwise. -/
def columnsOf : List Row → List String
  | [] => []
  | first :: _ => first.map Prod.fst

/-- The export click handler's navigation target: always
`/export?filial=` and the encoded filial; when at least one checkbox is
checked, additionally `&indices=` and the comma-joined checked indices. -/
def exportUrl (filial : String) (checkboxes : List (Nat × Bool)) : String :=
  let checked := collectChecked checkboxes
  let url := "/export?filial=" ++ encodeURIComponent filial
  if checked.length > 0 then
    url ++ "&indices=" ++ String.intercalate "," (checked.map toString)
  else
    url

/-- Concrete sample response used in the specification's scenarios:
`{"East": [{"id":"1","amount":"50"}, {"id":"2"}]}`. -/
def sampleData : DataResponse :=
  [("East", [[("id", "1"), ("amount", "50")], [("id", "2")]])]

/-- A concrete live table instance, for exercising the teardown path. -/
def sampleInstance : TableInstance :=
  { destroyed := false
    tableData := [[Cell.checkbox 0, Cell.text "1"]]
    columnTitles := ["", "id"]
    nonSortableTargets := [0]
    orderColumn := 1
    orderDirection := "asc" }

/-- A concrete state in which a table is currently rendered. -/
def sampleRendered : ViewState :=
  { dataTable := some sampleInstance
    theadCells := ["", "id"]
    tbodyRows := [[Cell.checkbox 0, Cell.text "1"]]
    exportEnabled := true }

lemma columnsOf_cons (first : Row) (rest : List Row) :
    columnsOf (first :: rest) = first.map Prod.fst := rfl

lemma buildDataSetFrom_getElem? (rows : List Row) (c : List String) (k i : Nat) :
    (buildDataSetFrom c k rows)[i]? = rows[i]?.map (fun r => rowCells c (k + i) r) := by
  induction rows generalizing k i with
  | nil => simp [buildDataSetFrom]
  | cons r rest ih =>
      cases i with
      | zero => simp [buildDataSetFrom]
      | succ n =>
          have harith : k + 1 + n = k + (n + 1) := by omega
          rw [buildDataSetFrom, List.getElem?_cons_succ, ih (k + 1) n, harith,
            List.getElem?_cons_succ]

lemma buildDataSet_getElem? (c : List String) (rows : List Row) (i : Nat) :
    (buildDataSet c rows)[i]? = rows[i]?.map (fun r => rowCells c i r) := by
  simpa using buildDataSetFrom_getElem? rows c 0 i

lemma buildDataSet_cons (c : List String) (first : Row) (rest : List Row) :
    buildDataSet c (first :: rest) = rowCells c 0 first :: buildDataSetFrom c 1 rest := rfl

lemma start_exportEnabled (s : ViewState) :
    (selectFilialStart s).exportEnabled = false := by
  cases hd : s.dataTable <;> simp [selectFilialStart, hd]

lemma start_clears (s : ViewState) (hinv : ViewInv s) :
    (selectFilialStart s).theadCells = [] ∧ (selectFilialStart s).tbodyRows = [] := by
  cases hd : s.dataTable with
  | none =>
      obtain ⟨h1, h2⟩ := hinv hd
      simp [selectFilialStart, hd, h1, h2]
  | some t => simp [selectFilialStart, hd]

lemma inv_start (s : ViewState) (hinv : ViewInv s) : ViewInv (selectFilialStart s) := by
  intro hnone
  obtain ⟨h1, h2⟩ := start_clears s hinv
  exact ⟨h1, h2⟩

lemma fetchAndRender_empty (s : ViewState) (f : String) (d : DataResponse)
    (h : rowsFor f d = []) : fetchAndRender f d s = selectFilialStart s := by
  simp [fetchAndRender, handleResponse, h]

lemma fetchAndRender_render (s : ViewState) (f : String) (d : DataResponse)
    (hinv : ViewInv s) (first : Row) (rest : List Row)
    (h : rowsFor f d = first :: rest) :
    (fetchAndRender f d s).theadCells = "" :: first.map Prod.fst ∧
    (fetchAndRender f d s).tbodyRows = buildDataSet (first.map Prod.fst) (first :: rest) := by
  obtain ⟨h1, h2⟩ := start_clears s hinv
  simp [fetchAndRender, handleResponse, h, h1, h2]

lemma inv_fetchAndRender (s : ViewState) (f : String) (d : DataResponse)
    (hinv : ViewInv s) : ViewInv (fetchAndRender f d s) := by
  cases hr : rowsFor f d with
  | nil => rw [fetchAndRender_empty s f d hr]; exact inv_start s hinv
  | cons first rest =>
      intro hnone
      simp [fetchAndRender, handleResponse, hr] at hnone

/-- C1: every export click navigates to a URL that carries the URL-encoded
filial as the `filial` query parameter; the checked indices are collected in
document order of the checkboxes, and the `indices` parameter is present with
the comma-joined list exactly when at least one checkbox is checked, absent
when none is. -/
theorem exportUrl_spec (filial : String) (cbs : List (Nat × Bool)) :
    collectChecked cbs = (cbs.filter (fun cb => cb.2)).map (fun cb => cb.1) ∧
    (collectChecked cbs = [] →
      exportUrl filial cbs = "/export?filial=" ++ encodeURIComponent filial) ∧
    (collectChecked cbs ≠ [] →
      exportUrl filial cbs = "/export?filial=" ++ encodeURIComponent filial ++
        "&indices=" ++ String.intercalate "," ((collectChecked cbs).map toString)) := by
  refine ⟨?_, ?_, ?_⟩
  · induction cbs with
    | nil => rfl
    | cons cb rest ih =>
        by_cases h : cb.2 <;> simp [collectChecked, h, ih, List.filter_cons]
  · intro h
    simp [exportUrl, h]
  · intro h
    have hl : 0 < (collectChecked cbs).length := List.length_pos.mpr h
    simp [exportUrl, hl]

/-- C1 witness: the spec's concrete examples, checked cells in document
order `[2, 0]` and the no-checked case. -/
theorem exportUrl_spec_witness :
    exportUrl "North" [(2, true), (0, true)] =
      "/export?filial=" ++ encodeURIComponent "North" ++ "&indices=" ++
        String.intercalate "," ([2, 0].map toString) ∧
    exportUrl "South" [(5, false)] = "/export?filial=" ++ encodeURIComponent "South" :=
  ⟨(exportUrl_spec "North" [(2, true), (0, true)]).2.2 (by decide),
   (exportUrl_spec "South" [(5, false)]).2.1 (by decide)⟩

/-- C2: for every response with at least one row, the rendered header is the
blank cell followed by exactly the first row's keys in that row's key order —
`1 + |keys(firstRow)|` cells, keys of later rows never contributing. -/
theorem header_from_first_row (s : ViewState) (f : String) (d : DataResponse)
    (hinv : ViewInv s) (first : Row) (rest : List Row)
    (h : rowsFor f d = first :: rest) :
    (fetchAndRender f d s).theadCells = "" :: first.map Prod.fst ∧
    (fetchAndRender f d s).theadCells.length = 1 + (first.map Prod.fst).length ∧
    ∀ k, k ∈ (fetchAndRender f d s).theadCells → k = "" ∨ k ∈ first.map Prod.fst := by
  obtain ⟨h1, -⟩ := fetchAndRender_render s f d hinv first rest h
  refine ⟨h1, ?_, ?_⟩
  · rw [h1]
    simp [Nat.add_comm]
  · intro k hk
    rw [h1] at hk
    exact List.mem_cons.mp hk

/-- C2 witness: the spec's `"East"` scenario renders header
`["", "id", "amount"]`. -/
theorem header_from_first_row_witness :
    (fetchAndRender "East" sampleData initState).theadCells = ["", "id", "amount"] := by
  have h := (header_from_first_row initState "East" sampleData (by decide)
    [("id", "1"), ("amount", "50")] [[("id", "2")]] (by decide)).1
  simpa using h

/-- C3: a response whose filial key is missing or maps to zero rows leaves
the view empty — the callback returns at the zero-row check, no new table is
created, header and body are empty, the export button stays disabled, and a
missing key yields exactly the zero-row outcome. -/
theorem empty_rows_terminal (s : ViewState) (f : String) (d : DataResponse)
    (hinv : ViewInv s) (h : rowsFor f d = []) :
    fetchAndRender f d s = selectFilialStart s ∧
    (fetchAndRender f d s).exportEnabled = false ∧
    (fetchAndRender f d s).theadCells = [] ∧
    (fetchAndRender f d s).tbodyRows = [] ∧
    (∀ t, s.dataTable = some t →
      (fetchAndRender f d s).dataTable = some { t with destroyed := true }) ∧
    (s.dataTable = none → (fetchAndRender f d s).dataTable = none) ∧
    (∀ d2 : DataResponse, d2.lookup f = none → rowsFor f d2 = []) := by
  have he := fetchAndRender_empty s f d h
  obtain ⟨h1, h2⟩ := start_clears s hinv
  refine ⟨he, ?_, ?_, ?_, ?_, ?_, ?_⟩
  · rw [he]
    exact start_exportEnabled s
  · rw [he]
    exact h1
  · rw [he]
    exact h2
  · intro t ht
    rw [he]
    simp [selectFilialStart, ht]
  · intro ht
    rw [he]
    simp [selectFilialStart, ht]
  · intro d2 hmiss
    simp [rowsFor, hmiss]

/-- C3 witness: the `"South"` scenario — a key absent from the response —
leaves body empty and export disabled. -/
theorem empty_rows_terminal_witness :
    (fetchAndRender "South" sampleData initState).exportEnabled = false ∧
    (fetchAndRender "South" sampleData initState).tbodyRows = [] := by
  have h := empty_rows_terminal initState "South" sampleData (by decide) (by decide)
  exact ⟨h.2.1, h.2.2.2.1⟩

/-- C4: in every rendered table, the i-th body row's leading checkbox cell
carries `data-index` equal to i, the row's position in the fetched sequence. -/
theorem checkbox_index_matches_position (s : ViewState) (f : String)
    (d : DataResponse) (hinv : ViewInv s) (i : Nat)
    (h : i < (rowsFor f d).length) :
    ∃ vals, (fetchAndRender f d s).tbodyRows[i]? = some (Cell.checkbox i :: vals) := by
  cases hr : rowsFor f d with
  | nil =>
      rw [hr] at h
      simp at h
  | cons first rest =>
      obtain ⟨-, hb⟩ := fetchAndRender_render s f d hinv first rest hr
      rw [hr] at h
      rw [hb, buildDataSet_getElem?, List.getElem?_eq_getElem h]
      exact ⟨_, rfl⟩

/-- C4 witness: in the `"East"` scenario, row 1 carries checkbox index 1. -/
theorem checkbox_index_matches_position_witness :
    ∃ vals, (fetchAndRender "East" sampleData initState).tbodyRows[1]? =
      some (Cell.checkbox 1 :: vals) :=
  checkbox_index_matches_position initState "East" sampleData (by decide) 1 (by decide)

/-- C5: the export button is disabled by the synchronous prefix before the
request is issued, and after a completed cycle it is enabled exactly when the
response had at least one row — equivalently, exactly when a live table with
a non-empty data set was rendered. -/
theorem export_enablement (s : ViewState) (f : String) (d : DataResponse) :
    (selectFilialStart s).exportEnabled = false ∧
    ((fetchAndRender f d s).exportEnabled = true ↔ rowsFor f d ≠ []) ∧
    ((fetchAndRender f d s).exportEnabled = true ↔
      ∃ t, (fetchAndRender f d s).dataTable = some t ∧ t.destroyed = false ∧
        t.tableData ≠ []) ∧
    ∃ pre, selectFilialTrace s f = pre ++ [Ev.disableExport, Ev.issueRequest f] := by
  refine ⟨start_exportEnabled s, ?_, ?_, ?_⟩
  · cases hr : rowsFor f d with
    | nil =>
        rw [fetchAndRender_empty s f d hr, start_exportEnabled s]
        simp [hr]
    | cons first rest =>
        simp [fetchAndRender, handleResponse, hr]
  · cases hr : rowsFor f d with
    | nil =>
        rw [fetchAndRender_empty s f d hr, start_exportEnabled s]
        cases hd : s.dataTable with
        | none => simp [selectFilialStart, hd]
        | some t => simp [selectFilialStart, hd]
    | cons first rest =>
        simp [fetchAndRender, handleResponse, hr, buildDataSet, buildDataSetFrom]
  · cases hd : s.dataTable with
    | none => exact ⟨[], by simp [selectFilialTrace, hd]⟩
    | some t =>
        exact ⟨[Ev.destroyCall t.destroyed, Ev.clearBody, Ev.clearHeader],
          by simp [selectFilialTrace, hd]⟩

/-- C6: in every rendered row, a column of the first record that is absent
from that row renders as the empty string, and a present value is rendered
unchanged (cell `i + 1` corresponds to column `i`, after the checkbox). -/
theorem absent_column_renders_empty (s : ViewState) (f : String) (d : DataResponse)
    (hinv : ViewInv s) (j i : Nat) (row : Row) (col : String)
    (hrow : (rowsFor f d)[j]? = some row)
    (hcol : (columnsOf (rowsFor f d))[i]? = some col) :
    (row.lookup col = none →
      ((fetchAndRender f d s).tbodyRows[j]?.bind (fun cells => cells[i + 1]?)) =
        some (Cell.text "")) ∧
    (∀ v, row.lookup col = some v →
      ((fetchAndRender f d s).tbodyRows[j]?.bind (fun cells => cells[i + 1]?)) =
        some (Cell.text v)) := by
  cases hr : rowsFor f d with
  | nil =>
      rw [hr] at hrow
      simp at hrow
  | cons first rest =>
      obtain ⟨-, hb⟩ := fetchAndRender_render s f d hinv first rest hr
      rw [hr, columnsOf_cons] at hcol
      rw [hr] at hrow
      set c := List.map Prod.fst first with hc
      rw [hb, buildDataSet_getElem?, hrow]
      constructor
      · intro hnone
        simp [rowCells, hcol, hnone]
      · intro v hv
        simp [rowCells, hcol, hv]

/-- C6 witness: in the `"East"` scenario, row 1 (`{"id":"2"}`) lacks the
`"amount"` column and renders it as the empty string. -/
theorem absent_column_renders_empty_witness :
    ((fetchAndRender "East" sampleData initState).tbodyRows[1]?.bind
      (fun cells => cells[1 + 1]?)) = some (Cell.text "") :=
  (absent_column_renders_empty initState "East" sampleData (by decide) 1 1
    [("id", "2")] "amount" (by decide) (by decide)).1 (by decide)

/-- C7: when a table is currently rendered, the synchronous prefix of a new
selection destroys it and clears body and header strictly before the request
event, which is the last event of the prefix trace; at request time the view
is already torn down. -/
theorem teardown_before_request (s : ViewState) (f : String) (t : TableInstance)
    (h : s.dataTable = some t) :
    selectFilialTrace s f =
      [Ev.destroyCall t.destroyed, Ev.clearBody, Ev.clearHeader,
       Ev.disableExport, Ev.issueRequest f] ∧
    (selectFilialStart s).dataTable = some { t with destroyed := true } ∧
    (selectFilialStart s).theadCells = [] ∧
    (selectFilialStart s).tbodyRows = [] ∧
    (selectFilialStart s).exportEnabled = false ∧
    (selectFilialTrace s f).getLast? = some (Ev.issueRequest f) := by
  refine ⟨?_, ?_, ?_, ?_, start_exportEnabled s, ?_⟩ <;>
    simp [selectFilialTrace, selectFilialStart, h]

/-- C7 witness: the rendered sample state produces the full teardown trace. -/
theorem teardown_before_request_witness :
    selectFilialTrace sampleRendered "North" =
      [Ev.destroyCall false, Ev.clearBody, Ev.clearHeader, Ev.disableExport,
       Ev.issueRequest "North"] := by
  have h := (teardown_before_request sampleRendered "North" sampleInstance rfl).1
  simpa [sampleInstance] using h

/-- C8: every non-empty render initialises the table with default order
ascending on column 1 and the leading checkbox column (target 0) declared
non-sortable. -/
theorem default_sort_config (s : ViewState) (f : String) (d : DataResponse)
    (h : rowsFor f d ≠ []) :
    ∃ inst, (fetchAndRender f d s).dataTable = some inst ∧
      inst.orderColumn = 1 ∧ inst.orderDirection = "asc" ∧
      inst.nonSortableTargets = [0] ∧ inst.destroyed = false ∧
      inst.columnTitles = "" :: columnsOf (rowsFor f d) := by
  cases hr : rowsFor f d with
  | nil => exact absurd hr h
  | cons first rest =>
      refine ⟨⟨false, buildDataSet (first.map Prod.fst) (first :: rest),
        "" :: first.map Prod.fst, [0], 1, "asc"⟩, ?_, rfl, rfl, rfl, rfl, ?_⟩
      · simp [fetchAndRender, handleResponse, hr]
      · rfl

/-- C8 witness: the `"East"` scenario's table carries the default sort and
non-sortable checkbox column. -/
theorem default_sort_config_witness :
    ∃ inst, (fetchAndRender "East" sampleData initState).dataTable = some inst ∧
      inst.orderColumn = 1 ∧ inst.orderDirection = "asc" ∧
      inst.nonSortableTargets = [0] ∧ inst.destroyed = false ∧
      inst.columnTitles = "" :: columnsOf (rowsFor "East" sampleData) :=
  default_sort_config initState "East" sampleData (by decide)

/-- C9: selecting the same filial twice with the same response renders the
same header and body content both times. -/
theorem select_idempotent (s : ViewState) (f : String) (d : DataResponse)
    (hinv : ViewInv s) :
    (fetchAndRender f d (fetchAndRender f d s)).theadCells =
      (fetchAndRender f d s).theadCells ∧
    (fetchAndRender f d (fetchAndRender f d s)).tbodyRows =
      (fetchAndRender f d s).tbodyRows := by
  have hinv1 := inv_fetchAndRender s f d hinv
  cases hr : rowsFor f d with
  | nil =>
      rw [fetchAndRender_empty s f d hr]
      rw [fetchAndRender_empty (selectFilialStart s) f d hr]
      obtain ⟨a1, b1⟩ := start_clears s hinv
      obtain ⟨a2, b2⟩ := start_clears (selectFilialStart s) (inv_start s hinv)
      exact ⟨a2.trans a1.symm, b2.trans b1.symm⟩
  | cons first rest =>
      obtain ⟨a1, b1⟩ := fetchAndRender_render s f d hinv first rest hr
      obtain ⟨a2, b2⟩ :=
        fetchAndRender_render (fetchAndRender f d s) f d hinv1 first rest hr
      exact ⟨a2.trans a1.symm, b2.trans b1.symm⟩

/-- C9 witness: the `"East"` scenario rendered twice from the initial state. -/
theorem select_idempotent_witness :
    (fetchAndRender "East" sampleData (fetchAndRender "East" sampleData initState)).theadCells =
      (fetchAndRender "East" sampleData initState).theadCells ∧
    (fetchAndRender "East" sampleData (fetchAndRender "East" sampleData initState)).tbodyRows =
      (fetchAndRender "East" sampleData initState).tbodyRows :=
  select_idempotent initState "East" sampleData (by decide)

/-- C10: a zero-row cycle does not null the `dataTable` handle — it still
references the instance destroyed during teardown — so every later selection
runs the teardown branch again, calling `destroy()` on an already-destroyed
instance; in general the teardown branch fires whenever the handle is
non-null. -/
theorem stale_handle_destroy (s : ViewState) (f : String) (d : DataResponse)
    (t : TableInstance) (h : s.dataTable = some t) (hz : rowsFor f d = []) :
    (fetchAndRender f d s).dataTable = some { t with destroyed := true } ∧
    (fetchAndRender f d s).dataTable ≠ none ∧
    (∀ f2, Ev.destroyCall true ∈ selectFilialTrace (fetchAndRender f d s) f2) ∧
    (∀ s2 f2 u, s2.dataTable = some u →
      Ev.destroyCall u.destroyed ∈ selectFilialTrace s2 f2) := by
  have he := fetchAndRender_empty s f d hz
  have hd : (fetchAndRender f d s).dataTable = some { t with destroyed := true } := by
    rw [he]
    simp [selectFilialStart, h]
  refine ⟨hd, ?_, ?_, ?_⟩
  · rw [hd]
    simp
  · intro f2
    simp [selectFilialTrace, hd]
  · intro s2 f2 u hu
    simp [selectFilialTrace, hu]

/-- C10 witness: after a zero-row `"South"` cycle from the rendered sample
state, the next selection's trace contains a destroy call on an
already-destroyed instance. -/
theorem stale_handle_destroy_witness :
    Ev.destroyCall true ∈
      selectFilialTrace (fetchAndRender "South" sampleData sampleRendered) "East" :=
  (stale_handle_destroy sampleRendered "South" sampleData sampleInstance rfl
    (by decide)).2.2.1 "East"
